import Mathlib

/-!
Verification of the sampling-and-aggregation core of src/humtemplogger.py.

Modelling conventions:
* Python floats are embedded as exact rationals (ℚ).  The only float the
  program ever produces that is not a rational value is float(\x27nan\x27)
  returned by Logger.average_samples for an empty sample list; we embed a
  possibly-NaN float as Option ℚ with none standing for NaN (and, for the
  sensor attributes temp and humidity, none standing for Python None, since
  those attributes are either a real reading or None, never NaN).
* The external sensor driver (adafruit_dht) is embedded as an explicit
  outcome supplied to each poll: the driver either yields a temperature and
  a humidity, or raises RuntimeError while reading the temperature, or
  yields a temperature and then raises while reading the humidity.  This
  mirrors the two separate attribute reads in Sensor.poll.
* The file system is embedded as a FileState recording whether the header
  line was written at open time and the list of data rows appended since;
  opening the file is an explicit outcome (empty file / nonempty file /
  OSError swallowed by the bare except in Logger.__init__, which leaves the
  attribute self.f unassigned, embedded as f = none).
* Exceptions that escape main are embedded with Except: RunErr.nameError is
  the UnboundLocalError/NameError raised by referencing the unassigned
  locals logfile (line 200) and sen (line 220), RunErr.valueError is the
  ValueError raised by int() on a non-numeric pin argument (line 44, not
  caught by the except InvalidPinError handler at line 214), and
  RunErr.attributeError is the AttributeError raised by self.f.write when
  Logger.__init__ swallowed a failed open (line 175).
-/

/-- One outcome of the external DHT driver for one Sensor.poll call:
either both attribute reads succeed, or the temperature read raises
RuntimeError, or the temperature read succeeds and the humidity read
raises RuntimeError.  Error details are tagged by a natural number. -/
inductive PollRes where
  | ok (t h : ℚ)
  | failTemp (e : ℕ)
  | failHum (t : ℚ) (e : ℕ)
deriving DecidableEq

/-- The mutable attributes of a Sensor instance (src lines 40-108). -/
structure SensorState where
  pin : ℤ
  devID : String
  temp : Option ℚ
  humidity : Option ℚ
  error : Bool
  error_message : Option ℕ
deriving DecidableEq

/-- Sensor.poll (src lines 75-87): on success both attribute reads are
stored; on RuntimeError from either read, both temp and humidity are set
to None, the error flag is set, and the message is stored.  Note that a
successful poll leaves the error flag and error_message untouched. -/
def Sensor.poll (s : SensorState) (r : PollRes) : SensorState :=
  match r with
  | .ok t h => { s with temp := some t, humidity := some h }
  | .failTemp e =>
      { s with temp := none, humidity := none,
               error := true, error_message := some e }
  | .failHum _ e =>
      { s with temp := none, humidity := none,
               error := true, error_message := some e }

/-- Sensor.get_tempf (src lines 89-95).  The source tests the truthiness
of self.temp, so the conversion is applied only when temp is neither None
nor 0.0; otherwise temp itself is returned. -/
def Sensor.get_tempf (s : SensorState) : Option ℚ :=
  match s.temp with
  | none => none
  | some c => if c = 0 then some c else some (c * (9 / 5) + 32)

/-- Sensor.get_tempc (src lines 97-98). -/
def Sensor.get_tempc (s : SensorState) : Option ℚ := s.temp

/-- Sensor.get_humidity (src lines 100-101). -/
def Sensor.get_humidity (s : SensorState) : Option ℚ := s.humidity

/-- Sensor.get_error (src lines 103-108): resets the error flag, returns
the stored message and clears it. -/
def Sensor.get_error (s : SensorState) : SensorState × Option ℕ :=
  ({ s with error := false, error_message := none }, s.error_message)

/-- A command-line pin argument: either a string from which int() parses
the integer n, or a string on which int() raises ValueError. -/
inductive PinArg where
  | num (n : ℤ)
  | str
deriving DecidableEq

/-- The attribute state of a Sensor just before the first self.poll() in
Sensor.__init__ (src lines 42-66): devID defaults to the pin name string,
the error flag is clear and no message is stored. -/
def initSensor (gpio : ℤ) : SensorState :=
  { pin := gpio, devID := "board.D" ++ toString gpio,
    temp := none, humidity := none, error := false, error_message := none }

/-- Exceptions escaping Sensor.__init__. -/
inductive SensorErr where
  | invalidPin
  | valueError
deriving DecidableEq

/-- Sensor.__init__ (src lines 42-69): int() on a non-numeric argument
raises ValueError; an integer outside 0..27 raises InvalidPinError;
otherwise the state is initialised and the constructor makes the first
reading by calling self.poll(), whose driver outcome is firstPoll. -/
def sensorMk (a : PinArg) (firstPoll : PollRes) : Except SensorErr SensorState :=
  match a with
  | .str => .error .valueError
  | .num n =>
      if 0 ≤ n ∧ n ≤ 27 then .ok (Sensor.poll (initSensor n) firstPoll)
      else .error .invalidPin

/-- One data row written by Logger.log_data: device id and the three
averaged quantities (none embeds the float nan written for an empty
sample list).  The date and time fields are wall-clock strings and are
not modelled. -/
structure Row where
  dev : String
  tempc : Option ℚ
  tempf : Option ℚ
  humidity : Option ℚ
deriving DecidableEq

/-- The per-logger portion of the file system: whether the header line
was written when the file was opened, and the rows appended since. -/
structure FileState where
  headerWritten : Bool
  rows : List Row
deriving DecidableEq

/-- Outcome of the open() call in Logger.__init__: the file opened and
was empty (header written), the file opened and already had content, or
open() raised and the bare except swallowed the error (self.f is then
never assigned). -/
inductive OpenRes where
  | okEmpty
  | okNonEmpty
  | fail
deriving DecidableEq

/-- The mutable attributes of a Logger instance (src lines 111-179). -/
structure LoggerState where
  sensor : SensorState
  tempc : List ℚ
  tempf : List ℚ
  humidity : List ℚ
  error_message : Option ℕ
  f : Option FileState
deriving DecidableEq

/-- Logger.__init__ (src lines 113-135): empty sample lists, no stored
error (the source initialises error_message to an empty string, embedded
here as none), and the file handle according to the open() outcome. -/
def loggerInit (s : SensorState) (o : OpenRes) : LoggerState :=
  { sensor := s, tempc := [], tempf := [], humidity := [],
    error_message := none,
    f := match o with
      | .okEmpty => some { headerWritten := true, rows := [] }
      | .okNonEmpty => some { headerWritten := false, rows := [] }
      | .fail => none }

/-- Logger.read_sensor (src lines 141-154): poll the sensor; if the error
flag is clear append the three getter values to the sample lists,
otherwise consume the error via get_error. In the append branch the
getters always return an actual value (the poll just succeeded), so the
embedding extracts it with getD. -/
def read_sensor (l : LoggerState) (r : PollRes) : LoggerState :=
  let s := Sensor.poll l.sensor r
  if s.error then
    let p := Sensor.get_error s
    { l with sensor := p.1, error_message := p.2 }
  else
    { l with
      sensor := s,
      tempc := l.tempc ++ [(Sensor.get_tempc s).getD 0],
      tempf := l.tempf ++ [(Sensor.get_tempf s).getD 0],
      humidity := l.humidity ++ [(Sensor.get_humidity s).getD 0] }

/-- statistics.mean on a list of floats computes the exact rational mean
(via Fraction) before converting back; embedded as the exact mean. -/
def mean (l : List ℚ) : ℚ := l.sum / l.length

/-- Logger.average_samples (src lines 156-164): the mean for a nonempty
list, float nan (none) otherwise. -/
def average_samples (samples : List ℚ) : Option ℚ :=
  if 0 < samples.length then some (mean samples) else none

/-- Exceptions that escape the run loop and main. -/
inductive RunErr where
  | nameError
  | valueError
  | attributeError
deriving DecidableEq

/-- Logger.log_data (src lines 166-179): average the three sample lists
and append one row to the file.  If Logger.__init__ swallowed a failed
open, self.f was never assigned and self.f.write raises AttributeError.
The sample lists are NOT cleared. -/
def log_data (l : LoggerState) : Except RunErr LoggerState :=
  let tc := average_samples l.tempc
  let tf := average_samples l.tempf
  let hm := average_samples l.humidity
  match l.f with
  | none => .error .attributeError
  | some fs => .ok { l with f := some { fs with rows := fs.rows ++
      [{ dev := l.sensor.devID, tempc := tc, tempf := tf, humidity := hm }] } }

/-- One tick of the inner sampling loop (src lines 231-232): every logger
reads its sensor once; rs supplies each logger's driver outcome. -/
def tickAll (ls : List LoggerState) (rs : List PollRes) : List LoggerState :=
  List.zipWith read_sensor ls rs

/-- The flush at the end of a cycle (src lines 245-246). -/
def flushAll (ls : List LoggerState) : Except RunErr (List LoggerState) :=
  ls.mapM log_data

/-- One cycle: the inner sampling loop followed by the flush. -/
def runCycle (ls : List LoggerState) (cyc : List (List PollRes)) :
    Except RunErr (List LoggerState) :=
  flushAll (cyc.foldl tickAll ls)

/-- The supervisor loop of main (src lines 225-249).  The source
hard-codes 5 cycles (readings) of 10 ticks (samples) each; the schedule
argument lists, per cycle, per tick, the driver outcome for each logger,
so the counts are the schedule's dimensions. -/
def runLoop (ls : List LoggerState) (sched : List (List (List PollRes))) :
    Except RunErr (List LoggerState) :=
  sched.foldlM runCycle ls

/-- The sensor-construction loop of main (src lines 206-216): each pin
argument is tried in order; InvalidPinError is caught, reported and the
pin skipped (collected in the second component), while the ValueError
from int() on a non-numeric argument is not caught and aborts main.  Each
constructed sensor is paired with its Logger via the pin's open outcome. -/
def buildLoggers : List (PinArg × PollRes × OpenRes) →
    Except RunErr (List LoggerState × List PinArg)
  | [] => .ok ([], [])
  | (a, fp, o) :: rest =>
      match sensorMk a fp with
      | .error .valueError => .error .valueError
      | .error .invalidPin =>
          (buildLoggers rest).map fun p => (p.1, a :: p.2)
      | .ok s =>
          (buildLoggers rest).map fun p => (loggerInit s o :: p.1, p.2)

/-- The invocation surface of main: args[1] when present, the pin
arguments args[2:] each paired with the environment outcomes for the
sensor it would construct, and the driver schedule for the run loop. -/
structure MainArgs where
  pre : Option String
  pins : List (PinArg × PollRes × OpenRes)
  sched : List (List (List PollRes))

/-- main (src lines 182-255).  The help flags return 0 immediately.  With
no second argument the default-filename branch (line 200) prints an
f-string referencing the local logfile before any assignment to it, which
raises NameError (UnboundLocalError).  With a second argument but no pin
arguments the default-pin branch (line 220) references the local sen that
was never assigned, likewise raising NameError.  Otherwise the loggers
are built, the supervisor loop runs, and main returns 0 together with the
final logger states and the reported-and-skipped pins. -/
def mainModel (a : MainArgs) : Except RunErr (ℕ × List LoggerState × List PinArg) :=
  match a.pre with
  | none => .error .nameError
  | some s =>
      if s = "--help" ∨ s = "-h" then .ok (0, [], [])
      else
        match a.pins with
        | [] => .error .nameError
        | ps => do
            let built ← buildLoggers ps
            let fin ← runLoop built.1 a.sched
            .ok (0, fin, built.2)

/-- Exit code of a finished run. -/
def exitOf (r : Except RunErr (ℕ × List LoggerState × List PinArg)) : Option ℕ :=
  r.toOption.map (·.1)

/-- File handles of the loggers of a finished run. -/
def filesOf (r : Except RunErr (ℕ × List LoggerState × List PinArg)) :
    Option (List (Option FileState)) :=
  r.toOption.map fun p => p.2.1.map (·.f)

/-- Pins reported and skipped during construction of a finished run. -/
def skippedOf (r : Except RunErr (ℕ × List LoggerState × List PinArg)) :
    Option (List PinArg) :=
  r.toOption.map (·.2.2)

/-- The successful readings among a list of driver outcomes, in order. -/
def okReadings (rs : List PollRes) : List (ℚ × ℚ) :=
  rs.filterMap fun r => match r with
    | .ok t h => some (t, h)
    | _ => none

/-- The value Sensor.get_tempf yields for a stored celsius temperature c:
the conversion for nonzero c, and c itself when c is 0 (falsy in the
source's truthiness test). -/
def pyF (c : ℚ) : ℚ := if c = 0 then c else c * (9 / 5) + 32

/-- A Logger the way main builds one for pin 4, when the constructor poll
in Sensor.__init__ succeeds with reading (t0, h0) and the log file opens
as a new empty file. -/
def freshLogger (t0 h0 : ℚ) : LoggerState :=
  loggerInit (Sensor.poll (initSensor 4) (.ok t0 h0)) .okEmpty

/-! ## Helper lemmas -/

lemma okReadings_nil : okReadings [] = [] := rfl

lemma okReadings_ok (t h : ℚ) (rs : List PollRes) :
    okReadings (.ok t h :: rs) = (t, h) :: okReadings rs := rfl

lemma okReadings_failTemp (e : ℕ) (rs : List PollRes) :
    okReadings (.failTemp e :: rs) = okReadings rs := rfl

lemma okReadings_failHum (t : ℚ) (e : ℕ) (rs : List PollRes) :
    okReadings (.failHum t e :: rs) = okReadings rs := rfl

lemma get_tempf_eq (s : SensorState) : Sensor.get_tempf s = s.temp.map pyF := by
  cases htemp : s.temp with
  | none => simp [Sensor.get_tempf, htemp]
  | some c =>
    by_cases hc : c = 0 <;> simp [Sensor.get_tempf, htemp, pyF, hc]

lemma read_sensor_ok (l : LoggerState) (t h : ℚ)
    (he : l.sensor.error = false) :
    read_sensor l (.ok t h) =
      { l with
        sensor := { l.sensor with temp := some t, humidity := some h },
        tempc := l.tempc ++ [t],
        tempf := l.tempf ++ [pyF t],
        humidity := l.humidity ++ [h] } := by
  simp [read_sensor, Sensor.poll, he, Sensor.get_tempc, Sensor.get_humidity,
    get_tempf_eq]

lemma read_sensor_failTemp (l : LoggerState) (e : ℕ) :
    read_sensor l (.failTemp e) =
      { l with
        sensor := { l.sensor with
          temp := none, humidity := none, error := false, error_message := none },
        error_message := some e } := by
  simp [read_sensor, Sensor.poll, Sensor.get_error]

lemma read_sensor_failHum (l : LoggerState) (t : ℚ) (e : ℕ) :
    read_sensor l (.failHum t e) =
      { l with
        sensor := { l.sensor with
          temp := none, humidity := none, error := false, error_message := none },
        error_message := some e } := by
  simp [read_sensor, Sensor.poll, Sensor.get_error]

/-- Running any sequence of ticks from a logger whose sensor error flag is
clear appends exactly the successful readings, keeps the flag clear and
leaves the file handle and device id untouched. -/
lemma foldl_read_sensor_spec (rs : List PollRes) (l : LoggerState)
    (he : l.sensor.error = false) :
    ((rs.foldl read_sensor l).tempc
        = l.tempc ++ (okReadings rs).map Prod.fst) ∧
    ((rs.foldl read_sensor l).tempf
        = l.tempf ++ (okReadings rs).map fun p => pyF p.1) ∧
    ((rs.foldl read_sensor l).humidity
        = l.humidity ++ (okReadings rs).map Prod.snd) ∧
    ((rs.foldl read_sensor l).sensor.error = false) ∧
    ((rs.foldl read_sensor l).f = l.f) ∧
    ((rs.foldl read_sensor l).sensor.devID = l.sensor.devID) := by
  induction rs generalizing l with
  | nil => simpa [okReadings] using he
  | cons r rs ih =>
    cases r with
    | ok t h =>
      have hrec := read_sensor_ok l t h he
      have herr2 : (read_sensor l (.ok t h)).sensor.error = false := by
        rw [hrec]; exact he
      obtain ⟨h1, h2, h3, h4, h5, h6⟩ := ih (read_sensor l (.ok t h)) herr2
      rw [List.foldl_cons]
      refine ⟨?_, ?_, ?_, h4, ?_, ?_⟩
      · rw [h1, hrec]; simp [okReadings_ok]
      · rw [h2, hrec]; simp [okReadings_ok]
      · rw [h3, hrec]; simp [okReadings_ok]
      · rw [h5, hrec]
      · rw [h6, hrec]
    | failTemp e =>
      have hrec := read_sensor_failTemp l e
      have herr2 : (read_sensor l (.failTemp e)).sensor.error = false := by
        rw [hrec]
      obtain ⟨h1, h2, h3, h4, h5, h6⟩ := ih (read_sensor l (.failTemp e)) herr2
      rw [List.foldl_cons]
      refine ⟨?_, ?_, ?_, h4, ?_, ?_⟩
      · rw [h1, hrec]; simp [okReadings_failTemp]
      · rw [h2, hrec]; simp [okReadings_failTemp]
      · rw [h3, hrec]; simp [okReadings_failTemp]
      · rw [h5, hrec]
      · rw [h6, hrec]
    | failHum t e =>
      have hrec := read_sensor_failHum l t e
      have herr2 : (read_sensor l (.failHum t e)).sensor.error = false := by
        rw [hrec]
      obtain ⟨h1, h2, h3, h4, h5, h6⟩ := ih (read_sensor l (.failHum t e)) herr2
      rw [List.foldl_cons]
      refine ⟨?_, ?_, ?_, h4, ?_, ?_⟩
      · rw [h1, hrec]; simp [okReadings_failHum]
      · rw [h2, hrec]; simp [okReadings_failHum]
      · rw [h3, hrec]; simp [okReadings_failHum]
      · rw [h5, hrec]
      · rw [h6, hrec]

/-! ## C1 -/

/-- C1 (corrected): a freshly constructed Logger whose sensor constructor
poll succeeded, subjected to a sequence of ticks of which exactly the
okReadings succeed, holds exactly those k readings in its window; the
flush then writes one row whose fields are the averages over exactly
those k samples, NaN (none) exactly when k = 0 — but immediately after
the flush the window still holds the k samples: log_data does not clear
the lists, so the original claim that the window is empty after flush is
false. -/
theorem c1_tick_flush (t0 h0 : ℚ) (rs : List PollRes) :
    ((rs.foldl read_sensor (freshLogger t0 h0)).tempc
        = (okReadings rs).map Prod.fst) ∧
    ((rs.foldl read_sensor (freshLogger t0 h0)).tempf
        = (okReadings rs).map fun p => pyF p.1) ∧
    ((rs.foldl read_sensor (freshLogger t0 h0)).humidity
        = (okReadings rs).map Prod.snd) ∧
    (log_data (rs.foldl read_sensor (freshLogger t0 h0)) = .ok
      { rs.foldl read_sensor (freshLogger t0 h0) with
        f := some { headerWritten := true, rows :=
          [{ dev := "board.D4",
             tempc := average_samples ((okReadings rs).map Prod.fst),
             tempf := average_samples ((okReadings rs).map fun p => pyF p.1),
             humidity := average_samples ((okReadings rs).map Prod.snd) }] } }) ∧
    (average_samples ((okReadings rs).map Prod.fst) = none
        ↔ okReadings rs = []) ∧
    ((log_data (rs.foldl read_sensor (freshLogger t0 h0))).toOption.map
        LoggerState.tempc = some ((okReadings rs).map Prod.fst)) := by
  obtain ⟨h1, h2, h3, h4, h5, h6⟩ :=
    foldl_read_sensor_spec rs (freshLogger t0 h0) rfl
  have hf : (rs.foldl read_sensor (freshLogger t0 h0)).f
      = some { headerWritten := true, rows := [] } := h5
  have hdev : (rs.foldl read_sensor (freshLogger t0 h0)).sensor.devID
      = "board.D4" := by
    rw [h6]
    show ("board.D" ++ toString (4 : ℤ)) = "board.D4"
    decide
  have hc1 : (rs.foldl read_sensor (freshLogger t0 h0)).tempc
      = (okReadings rs).map Prod.fst := by simpa [freshLogger, loggerInit] using h1
  have hc2 : (rs.foldl read_sensor (freshLogger t0 h0)).tempf
      = (okReadings rs).map fun p => pyF p.1 := by
    simpa [freshLogger, loggerInit] using h2
  have hc3 : (rs.foldl read_sensor (freshLogger t0 h0)).humidity
      = (okReadings rs).map Prod.snd := by simpa [freshLogger, loggerInit] using h3
  have hlog : log_data (rs.foldl read_sensor (freshLogger t0 h0)) = .ok
      { rs.foldl read_sensor (freshLogger t0 h0) with
        f := some { headerWritten := true, rows :=
          [{ dev := "board.D4",
             tempc := average_samples ((okReadings rs).map Prod.fst),
             tempf := average_samples ((okReadings rs).map fun p => pyF p.1),
             humidity := average_samples ((okReadings rs).map Prod.snd) }] } } := by
    simp [log_data, hf, hc1, hc2, hc3, hdev]
  refine ⟨hc1, hc2, hc3, hlog, ?_, ?_⟩
  · have hlen : ((okReadings rs).map Prod.fst).length = (okReadings rs).length :=
      List.length_map _ _
    constructor
    · intro hnone
      by_contra hne
      have hpos : 0 < ((okReadings rs).map Prod.fst).length := by
        rw [hlen]
        exact List.length_pos.mpr hne
      simp [average_samples, hpos] at hnone
      exact hne hnone
    · intro hnil
      simp [average_samples, hnil]
  · rw [hlog]
    simp [Except.toOption, hc1]

/-- C1 counterexample: one successful tick, then a flush; the claim as
stated says the window is empty immediately after the flush, but the
flushed logger still holds the sample. -/
theorem c1_cex :
    (log_data ([PollRes.ok 20 50].foldl read_sensor (freshLogger 20 50))).toOption.map
      LoggerState.tempc ≠ some [] := by
  norm_num +decide [freshLogger, loggerInit, initSensor, read_sensor,
    Sensor.poll, Sensor.get_error, Sensor.get_tempc, Sensor.get_tempf,
    Sensor.get_humidity, log_data, average_samples, mean, Except.toOption]

/-! ## C2 -/

/-- The end-to-end scenario schedule: one sensor, 3 samples per cycle,
2 cycles; cycle 1 polls yield Reading(20,50), Fail, Reading(22,55) and
cycle 2 polls all fail. -/
def c2Sched : List (List (List PollRes)) :=
  [[[.ok 20 50], [.failTemp 11], [.ok 22 55]],
   [[.failTemp 12], [.failTemp 13], [.failTemp 14]]]

/-- The end-to-end scenario run: one pin argument 4 whose sensor
constructor poll succeeds and whose log file opens empty. -/
def c2Run : Except RunErr (ℕ × List LoggerState × List PinArg) :=
  mainModel ⟨some "beehive_1", [(.num 4, .ok 20 50, .okEmpty)], c2Sched⟩

/-- C2 (corrected): the scenario writes one header line and exactly two
rows; row 1 has tempC = 21, tempF = 69.8, humidity = 52.5 as claimed, but
row 2 repeats those same averages instead of being all-NaN, because
log_data never clears the sample lists, so cycle 2's empty tick yield is
averaged together with cycle 1's retained samples. -/
theorem c2_scenario :
    exitOf c2Run = some 0 ∧
    filesOf c2Run = some [some ⟨true,
      [⟨"board.D4", some 21, some (349 / 5), some (105 / 2)⟩,
       ⟨"board.D4", some 21, some (349 / 5), some (105 / 2)⟩]⟩] := by
  constructor <;>
  norm_num +decide [c2Run, mainModel, c2Sched, buildLoggers, sensorMk, initSensor,
    loggerInit, runLoop, runCycle, tickAll, flushAll, read_sensor, Sensor.poll,
    Sensor.get_error, Sensor.get_tempc, Sensor.get_tempf, Sensor.get_humidity,
    log_data, average_samples, mean, exitOf, filesOf, Except.toOption,
    Except.bind, Except.map, Except.pure, bind, pure, List.mapM, List.mapM.loop]

/-- C2 counterexample: the claimed output (second row with every numeric
field NaN) is not what the program writes for this scenario. -/
theorem c2_cex :
    filesOf c2Run ≠ some [some ⟨true,
      [⟨"board.D4", some 21, some (349 / 5), some (105 / 2)⟩,
       ⟨"board.D4", none, none, none⟩]⟩] := by
  norm_num +decide [c2Run, mainModel, c2Sched, buildLoggers, sensorMk, initSensor,
    loggerInit, runLoop, runCycle, tickAll, flushAll, read_sensor, Sensor.poll,
    Sensor.get_error, Sensor.get_tempc, Sensor.get_tempf, Sensor.get_humidity,
    log_data, average_samples, mean, filesOf, Except.toOption,
    Except.bind, Except.map, Except.pure, bind, pure, List.mapM, List.mapM.loop]

/-! ## C3 -/

/-- C3 (corrected): get_error returns the most recent failure detail
exactly once after a failed poll (a second consecutive call returns
None), and it returns None after a successful poll provided no earlier
failure is still unconsumed — but a successful poll does not clear a
recorded failure: the error flag and message survive success untouched,
so the original clears-on-success part of the claim is false. -/
theorem c3_get_error :
    (∀ (s : SensorState) (e : ℕ),
      (Sensor.get_error (Sensor.poll s (.failTemp e))).2 = some e) ∧
    (∀ (s : SensorState) (t : ℚ) (e : ℕ),
      (Sensor.get_error (Sensor.poll s (.failHum t e))).2 = some e) ∧
    (∀ (s : SensorState) (e : ℕ),
      (Sensor.get_error (Sensor.get_error (Sensor.poll s (.failTemp e))).1).2 = none) ∧
    (∀ (s : SensorState) (t h : ℚ),
      (Sensor.poll s (.ok t h)).error = s.error ∧
      (Sensor.poll s (.ok t h)).error_message = s.error_message) ∧
    (∀ (s : SensorState) (t h : ℚ), s.error_message = none →
      (Sensor.get_error (Sensor.poll s (.ok t h))).2 = none) := by
  refine ⟨?_, ?_, ?_, ?_, ?_⟩ <;> intros <;>
    simp_all [Sensor.poll, Sensor.get_error]

/-- C3 witness: immediately after the constructor poll succeeds, with no
unconsumed failure recorded, get_error returns None. -/
theorem c3_witness :
    (Sensor.get_error (Sensor.poll (initSensor 4) (.ok 20 50))).2 = none :=
  c3_get_error.2.2.2.2 (initSensor 4) 20 50 rfl

/-- C3 counterexample: after a failure followed by a successful poll,
get_error still returns the stale failure, not None, so a successful
poll does not clear the recorded failure. -/
theorem c3_cex :
    (Sensor.get_error (Sensor.poll (Sensor.poll (Sensor.poll (initSensor 4)
      (.ok 20 50)) (.failTemp 7)) (.ok 21 51))).2 ≠ none := by decide

/-! ## C4 -/

/-- C4 (code_bug evaluation): invoked with no second argument, main
reaches the default-filename print which references the local logfile
before any assignment and raises NameError; invoked with a filename but
no pin arguments, main reaches the default-pin branch which references
the never-assigned local sen and raises NameError.  Neither documented
default path runs. -/
theorem c4_default_paths :
    mainModel ⟨none, [], []⟩ = .error .nameError ∧
    mainModel ⟨some "beehive_1", [], []⟩ = .error .nameError := by
  constructor
  · rfl
  · rfl

/-! ## C5 -/

lemma sum_map_affine (cs : List ℚ) :
    (cs.map fun c => c * (9 / 5) + 32).sum = cs.sum * (9 / 5) + 32 * cs.length := by
  induction cs with
  | nil => simp
  | cons a l ihl =>
    simp [ihl]
    ring

/-- C5 (corrected): for every nonzero stored celsius value the reported
Fahrenheit is exactly c * 9/5 + 32, and the flushed Fahrenheit average
is exactly the celsius average * 9/5 + 32 whenever every sample is
nonzero — but at celsius 0 the truthiness test in get_tempf skips the
conversion and reports 0 instead of 32, and the Fahrenheit samples are
stored in their own list rather than recomputed at flush time. -/
theorem c5_fahrenheit :
    (∀ (s : SensorState) (c : ℚ), c ≠ 0 → s.temp = some c →
      Sensor.get_tempf s = some (c * (9 / 5) + 32)) ∧
    (∀ cs : List ℚ, (∀ c ∈ cs, c ≠ 0) →
      average_samples (cs.map pyF)
        = (average_samples cs).map fun a => a * (9 / 5) + 32) := by
  constructor
  · intro s c hc hst
    simp [get_tempf_eq, hst, pyF, hc]
  · intro cs hz
    rcases eq_or_ne cs [] with hnil | hne
    · simp [hnil, average_samples]
    · have hmap : cs.map pyF = cs.map fun c => c * (9 / 5) + 32 :=
        List.map_congr_left fun c hc => by simp [pyF, hz c hc]
      have hpos : 0 < cs.length := List.length_pos.mpr hne
      have hlen : (cs.map pyF).length = cs.length := by
        rw [hmap]; exact List.length_map _ _
      have h1 : average_samples (cs.map pyF) = some (mean (cs.map pyF)) := by
        simp [average_samples, hlen, hpos]
      have h2 : average_samples cs = some (mean cs) := by
        simp [average_samples, hpos]
      rw [h1, h2, Option.map_some', Option.some.injEq, mean, mean, hmap]
      simp only [sum_map_affine, List.length_map]
      have hne0 : (cs.length : ℚ) ≠ 0 := by
        exact_mod_cast Nat.pos_iff_ne_zero.mp hpos
      field_simp
      ring

/-- C5 witness: the conversion law applied at celsius 20 for a single
reading, and at the two-sample window of the end-to-end scenario. -/
theorem c5_witness :
    Sensor.get_tempf (Sensor.poll (initSensor 4) (.ok 20 50))
      = some (20 * (9 / 5) + 32) ∧
    average_samples ([20, 22].map pyF)
      = (average_samples [(20 : ℚ), 22]).map fun a => a * (9 / 5) + 32 := by
  constructor
  · exact c5_fahrenheit.1 _ 20 (by norm_num) rfl
  · exact c5_fahrenheit.2 [20, 22] (by decide)

/-- C5 counterexample: at a non-NaN celsius reading of 0 the reported
Fahrenheit is 0, not 0 * 9/5 + 32 = 32. -/
theorem c5_cex :
    Sensor.get_tempf (Sensor.poll (initSensor 4) (.ok 0 50))
      ≠ some (0 * (9 / 5) + 32) := by
  norm_num [get_tempf_eq, Sensor.poll, initSensor, pyF]

/-! ## C6 -/

/-- The schedule shape the source hard-codes: 5 reading cycles of 10
samples each, here with every poll succeeding at reading (21, 50). -/
def sched5x10 : List (List (List PollRes)) :=
  List.replicate 5 (List.replicate 10 [PollRes.ok 21 50])

/-- A run with one valid pin (4) and one out-of-range pin (99). -/
def c6Run : Except RunErr (ℕ × List LoggerState × List PinArg) :=
  mainModel ⟨some "beehive_1",
    [(.num 4, .ok 20 50, .okEmpty), (.num 99, .ok 0 0, .okEmpty)], sched5x10⟩

/-- C6 (corrected): every out-of-range integer pin argument is reported
and skipped without aborting construction, and a run with one valid and
one out-of-range pin completes with exit code 0 and log output for the
valid pin — but the claim fails for non-integer pin arguments, whose
ValueError from int() is not caught (see the counterexample). -/
theorem c6_pin_validation :
    (∀ p : ℤ, p < 0 ∨ 27 < p → ∀ (r : PollRes) (o : OpenRes)
        (rest : List (PinArg × PollRes × OpenRes)),
      buildLoggers ((PinArg.num p, r, o) :: rest)
        = (buildLoggers rest).map fun q => (q.1, PinArg.num p :: q.2)) ∧
    (exitOf c6Run = some 0 ∧ skippedOf c6Run = some [PinArg.num 99] ∧
      filesOf c6Run = some [some ⟨true, List.replicate 5
        ⟨"board.D4", some 21, some (349 / 5), some 50⟩⟩]) := by
  constructor
  · intro p hp r o rest
    have hinv : ¬ (0 ≤ p ∧ p ≤ 27) := by omega
    simp [buildLoggers, sensorMk, hinv]
  · refine ⟨?_, ?_, ?_⟩ <;>
    norm_num +decide [c6Run, mainModel, sched5x10, buildLoggers, sensorMk,
      initSensor, loggerInit, runLoop, runCycle, tickAll, flushAll, read_sensor,
      Sensor.poll, Sensor.get_error, Sensor.get_tempc, Sensor.get_tempf,
      Sensor.get_humidity, log_data, average_samples, mean, exitOf, filesOf,
      skippedOf, Except.toOption, Except.bind, Except.map, Except.pure, bind,
      pure, List.mapM, List.mapM.loop, List.replicate]

/-- C6 witness: the skip law applied at the out-of-range pin 99 alone. -/
theorem c6_witness :
    buildLoggers [(PinArg.num 99, .ok 0 0, .okEmpty)]
      = .ok ([], [PinArg.num 99]) := by
  simpa [buildLoggers, Except.map] using
    c6_pin_validation.1 99 (by norm_num) (.ok 0 0) .okEmpty []

/-- A run whose first pin argument is a non-numeric string. -/
def c6BadRun : Except RunErr (ℕ × List LoggerState × List PinArg) :=
  mainModel ⟨some "beehive_1",
    [(.str, .ok 0 0, .okEmpty), (.num 4, .ok 20 50, .okEmpty)], sched5x10⟩

/-- C6 counterexample: a non-numeric pin argument is an invalid pin
argument, yet it is not reported-and-skipped: the ValueError from int()
escapes and aborts the whole run, valid pin notwithstanding. -/
theorem c6_cex :
    c6BadRun = .error .valueError ∧ exitOf c6BadRun ≠ some 0 := by
  have h : c6BadRun = .error .valueError := rfl
  exact ⟨h, by rw [exitOf, h]; simp [Except.toOption]⟩

/-! ## C7 -/

/-- C7 (corrected): when open() fails, Logger construction indeed
completes with the error swallowed and no usable sink — but the process
does not silently discard future writes: the first log_data call hits
the never-assigned attribute self.f and raises AttributeError, which
crashes the run (see the counterexample for the whole-run crash). -/
theorem c7_sink :
    (∀ s : SensorState, (loggerInit s .fail).f = none) ∧
    (∀ l : LoggerState, l.f = none → log_data l = .error .attributeError) := by
  constructor
  · intro s; rfl
  · intro l hl; simp [log_data, hl]

/-- C7 witness: a concrete Logger built over a failed open has no sink
and its first flush raises. -/
theorem c7_witness :
    log_data (loggerInit (initSensor 4) .fail) = .error .attributeError :=
  c7_sink.2 (loggerInit (initSensor 4) .fail) (c7_sink.1 (initSensor 4))

/-- A full run whose only logger was constructed over a failed open. -/
def c7Run : Except RunErr (ℕ × List LoggerState × List PinArg) :=
  mainModel ⟨some "beehive_1", [(.num 4, .ok 20 50, .fail)], [[[.ok 21 50]]]⟩

/-- C7 counterexample: the claim says no write attempt crashes the run;
in fact the first flush of the sinkless logger aborts the whole run with
AttributeError. -/
theorem c7_cex :
    c7Run = .error .attributeError ∧ exitOf c7Run ≠ some 0 := by
  have h : c7Run = .error .attributeError := rfl
  exact ⟨h, by rw [exitOf, h]; simp [Except.toOption]⟩

/-! ## C8 -/

/-- C8 (confirmed): average_samples returns NaN (none) on an empty
sample list and the exact arithmetic mean on a nonempty one, and
log_data applies it to each of the three sample lists independently,
writing the three averages into the row. -/
theorem c8_average :
    (average_samples ([] : List ℚ) = none) ∧
    (∀ cs : List ℚ, cs ≠ [] →
      average_samples cs = some (cs.sum / (cs.length : ℚ))) ∧
    (∀ (l : LoggerState) (fs : FileState), l.f = some fs →
      log_data l = .ok { l with f := some { fs with rows := fs.rows ++
        [{ dev := l.sensor.devID, tempc := average_samples l.tempc,
           tempf := average_samples l.tempf,
           humidity := average_samples l.humidity }] } }) := by
  refine ⟨rfl, ?_, ?_⟩
  · intro cs hne
    simp [average_samples, mean, List.length_pos.mpr hne]
  · intro l fs hf
    simp [log_data, hf]

/-- C8 witness: the mean law at a concrete two-sample list and the
independent-averages row law at a concrete fresh logger. -/
theorem c8_witness :
    average_samples [(2 : ℚ), 4]
      = some (([(2 : ℚ), 4].sum) / (([(2 : ℚ), 4].length : ℚ))) ∧
    log_data (freshLogger 20 50) = .ok { freshLogger 20 50 with
      f := some { headerWritten := true, rows :=
        [{ dev := (freshLogger 20 50).sensor.devID,
           tempc := average_samples (freshLogger 20 50).tempc,
           tempf := average_samples (freshLogger 20 50).tempf,
           humidity := average_samples (freshLogger 20 50).humidity }] } } := by
  constructor
  · exact c8_average.2.1 [2, 4] (by simp)
  · simpa using c8_average.2.2 (freshLogger 20 50) ⟨true, []⟩ rfl

/-! ## C9 -/

lemma buildLoggers_all_invalid (ps : List (ℤ × PollRes × OpenRes))
    (hall : ∀ x ∈ ps, x.1 < 0 ∨ 27 < x.1) :
    buildLoggers (ps.map fun x => (PinArg.num x.1, x.2.1, x.2.2))
      = .ok ([], ps.map fun x => PinArg.num x.1) := by
  induction ps with
  | nil => rfl
  | cons a as ihp =>
    have hinv : ¬ (0 ≤ a.1 ∧ a.1 ≤ 27) := by
      have := hall a (List.mem_cons_self a as)
      omega
    have hrest := ihp fun x hx => hall x (List.mem_cons_of_mem _ hx)
    simp [buildLoggers, sensorMk, hinv, hrest, Except.map]

lemma runLoop_nil (sched : List (List (List PollRes))) :
    runLoop [] sched = .ok [] := by
  induction sched with
  | nil => rfl
  | cons c cs ihs =>
    have hfold : c.foldl tickAll [] = [] := by
      induction c with
      | nil => rfl
      | cons r rsx iht => simp [tickAll, iht]
    have hcyc : runCycle [] c = .ok [] := by
      simp [runCycle, flushAll, hfold, List.mapM, List.mapM.loop, pure, Except.pure]
    simp only [runLoop, List.foldlM] at ihs ⊢
    rw [hcyc]
    exact ihs

/-- C9 (corrected): a run whose pin arguments are all out-of-range
integers constructs zero sensors and completes cleanly: exit code 0, no
loggers and hence no data rows, every bad pin reported and skipped — but
a run whose pin argument is a non-numeric string also constructs zero
sensors and crashes instead of completing cleanly (see counterexample). -/
theorem c9_all_invalid (ps : List (ℤ × PollRes × OpenRes)) (hne : ps ≠ [])
    (hall : ∀ x ∈ ps, x.1 < 0 ∨ 27 < x.1)
    (sched : List (List (List PollRes))) :
    mainModel ⟨some "humtemp",
        ps.map fun x => (PinArg.num x.1, x.2.1, x.2.2), sched⟩
      = .ok (0, [], ps.map fun x => PinArg.num x.1) := by
  obtain ⟨a, as, rfl⟩ := List.exists_cons_of_ne_nil hne
  have hbuild := buildLoggers_all_invalid (a :: as) hall
  simp +decide [mainModel, hbuild, runLoop_nil, Except.bind, bind] at hbuild ⊢
  simp [hbuild, runLoop_nil]

/-- C9 witness: the clean zero-sensor run at the single out-of-range
pin 99. -/
theorem c9_witness :
    mainModel ⟨some "humtemp", [(PinArg.num 99, .ok 0 0, .okEmpty)], []⟩
      = .ok (0, [], [PinArg.num 99]) := by
  simpa using c9_all_invalid [(99, .ok 0 0, .okEmpty)] (by simp) (by decide) []

/-- A run whose only pin argument is non-numeric: zero sensors are
constructed and the run aborts. -/
def c9BadRun : Except RunErr (ℕ × List LoggerState × List PinArg) :=
  mainModel ⟨some "humtemp", [(.str, .failTemp 0, .okEmpty)], []⟩

/-- C9 counterexample: with a non-numeric pin argument zero sensors are
successfully constructed, yet the run does not complete cleanly with
exit code 0 — it aborts with the uncaught ValueError. -/
theorem c9_cex :
    c9BadRun = .error .valueError ∧ exitOf c9BadRun ≠ some 0 := by
  have h : c9BadRun = .error .valueError := rfl
  exact ⟨h, by rw [exitOf, h]; simp [Except.toOption]⟩

/-! ## C10 -/

/-- C10 (confirmed): after any poll, the stored temperature and humidity
exposed by get_tempc and get_humidity are either both the values of that
successful read, or both None on any failure — including the failure of
the humidity read after a successful temperature read — so a failed poll
atomically discards any earlier reading and never exposes a stale value. -/
theorem c10_poll_atomic (s : SensorState) (r : PollRes) :
    match r with
    | .ok t h => Sensor.get_tempc (Sensor.poll s r) = some t ∧
                 Sensor.get_humidity (Sensor.poll s r) = some h
    | .failTemp _ => Sensor.get_tempc (Sensor.poll s r) = none ∧
                     Sensor.get_humidity (Sensor.poll s r) = none
    | .failHum _ _ => Sensor.get_tempc (Sensor.poll s r) = none ∧
                      Sensor.get_humidity (Sensor.poll s r) = none := by
  cases r <;> simp [Sensor.poll, Sensor.get_tempc, Sensor.get_humidity]
